import Mathlib

/-
Shallow embedding of the martin DNS codec and resolver (dhild/martin).

Byte buffers are `List Nat` (one entry per byte; concrete inputs use values
below 256, matching `u8`).  Parsers mirror the nom-based combinators of the
source: a parse either consumes a prefix and yields a value (`done`), fails
with a nom error (`perror`), asks for more bytes (`incomplete`), panics
(Rust panic: slice index out of range / debug overflow, modelled explicitly
because the source contains unchecked slicing), or diverges (the source's
compression-pointer recursion is unbounded, so the embedding threads fuel
and reports exhaustion as `diverge`).
-/

namespace Martin

-- ## Error taxonomy

/-- `NameParseError` from src/names.rs (the source spells `Hypen`). -/
inductive NameParseError where
  | TotalLengthGreaterThan255 (n : Nat)
  | LabelLengthGreaterThan63 (n : Nat)
  | InvalidCharacter (c : Char)
  | HypenFirstCharacterInLabel
  | NameMustEndInRootLabel
  | EmptyNonRootLabel
deriving DecidableEq, Repr

/-- `Type` from src/rr.rs (named `RType` because `Type` is reserved in Lean). -/
inductive RType where
  | A | AAAA | CNAME | SOA | OPT | MX | NS | TXT
  | Unknown (value : Nat)
deriving DecidableEq, Repr

/-- `ParseError` from src/errors.rs. -/
inductive ParseError where
  | Incomplete
  | NameError (e : NameParseError)
  | InvalidRecordLength (t : RType)
  | OptNameNotRoot
  | TxtInvalidUtf8
deriving DecidableEq, Repr

/-- nom error kinds as the source instantiates them: the rr parsers use
`ErrorKind::Custom(u32)` codes (`code`), the name parser uses
`ErrorKind::Custom(ParseError)` (`nameErr`), and `node n e` stands for
`add_return_error!`/`error_node_position!` attaching `Custom(n)` on top of
an inner error. -/
inductive ErrK where
  | tagMismatch
  | mapOptFailed
  | mapResFailed
  | manyFailed
  | code (n : Nat)
  | nameErr (e : NameParseError)
  | node (n : Nat) (inner : ErrK)
deriving DecidableEq, Repr

/-- nom `IResult`, extended with `panic` (Rust panics reachable in the
source) and `diverge` (fuel exhaustion standing for the source's unbounded
pointer-chase recursion). -/
inductive PR (α : Type) where
  | done (rest : List Nat) (val : α)
  | perror (e : ErrK)
  | incomplete (n : Nat)
  | panic
  | diverge
deriving DecidableEq, Repr

/-- Sequencing of parse steps, mirroring nom's `do_parse!` chains. -/
def pbind {α β : Type} (p : PR α) (f : α → List Nat → PR β) : PR β :=
  match p with
  | .done rest v => f v rest
  | .perror e => .perror e
  | .incomplete n => .incomplete n
  | .panic => .panic
  | .diverge => .diverge

/-- True exactly on the `incomplete` outcome. -/
def PR.isIncomplete {α : Type} : PR α → Bool
  | .incomplete _ => true
  | _ => false

-- ## Byte-level primitives (nom `be_u8` / `be_u16` / `be_u32` / `take!`)

def be_u8 : List Nat → PR Nat
  | [] => .incomplete 1
  | b :: r => .done r b

def be_u16 : List Nat → PR Nat
  | a :: b :: r => .done r (a * 256 + b)
  | _ => .incomplete 2

def be_u32 : List Nat → PR Nat
  | a :: b :: c :: d :: r => .done r (((a * 256 + b) * 256 + c) * 256 + d)
  | _ => .incomplete 4

/-- Reinterpret a `u32` value as an `i32` (two's complement). -/
def to_i32 (n : Nat) : Int :=
  if n < 2147483648 then (n : Int) else (n : Int) - 4294967296

def be_i32 (i : List Nat) : PR Int :=
  pbind (be_u32 i) fun v r => .done r (to_i32 v)

def take_n (n : Nat) (i : List Nat) : PR (List Nat) :=
  if i.length < n then .incomplete n else .done (i.drop n) (i.take n)

/-- nom `tag!` against a two-byte literal. -/
def tag2 (x y : Nat) (i : List Nat) : PR Unit :=
  match i with
  | a :: b :: r => if a = x ∧ b = y then .done r () else .perror .tagMismatch
  | _ => .incomplete 2

/-- nom `add_return_error!(ErrorKind::Custom(n), ...)`. -/
def add_return_error {α : Type} (n : Nat) (p : PR α) : PR α :=
  match p with
  | .perror e => .perror (.node n e)
  | x => x

-- ## Names (src/names.rs)

/-- A domain name, owning its wire-encoded label bytes (src/names.rs). -/
structure Name where
  name : List Nat
deriving DecidableEq, Repr

/-- `Name::is_root` from src/names.rs. -/
def Name.is_root (n : Name) : Bool := n.name = [0]

/-- Valid label byte per src/names.rs `from_str`: ASCII letter, digit or
hyphen (`'a'..='z' | 'A'..='Z' | '0'..='9' | '-'`). -/
def is_name_byte (c : Nat) : Bool :=
  (97 ≤ c && c ≤ 122) || (65 ≤ c && c ≤ 90) || (48 ≤ c && c ≤ 57) || c = 45

/-- Character form of `is_name_byte`; Rust's char range patterns compare
scalar values, which `Char.toNat` reproduces exactly. -/
def is_name_char (c : Char) : Bool := is_name_byte c.toNat

/-- `Name::from_str` label-scan loop (src/names.rs lines 126-151), with the
mutable `name` vector, `last_label_index` and `label_len` threaded as
arguments; `name[last_label_index] = label_len; last_label_index =
name.len(); name.push(0)` becomes `List.set` followed by an append. -/
def from_str_go : List Char → List Nat → Nat → Nat → Except NameParseError (List Nat)
  | [], name, _, label_len =>
    if label_len ≠ 0 then .error .NameMustEndInRootLabel else .ok name
  | c :: cs, name, last_label_index, label_len =>
    if c = '.' then
      if label_len = 0 then .error .EmptyNonRootLabel
      else if label_len > 63 then .error (.LabelLengthGreaterThan63 label_len)
      else from_str_go cs ((name.set last_label_index label_len) ++ [0]) name.length 0
    else if c = '-' ∧ label_len = 0 then .error .HypenFirstCharacterInLabel
    else if is_name_char c then from_str_go cs (name ++ [c.toNat]) last_label_index (label_len + 1)
    else .error (.InvalidCharacter c)

/-- `Name::from_str` (src/names.rs lines 117-152).  The input is the list
of characters of the string; the source's `s.len() > 254` guard is modelled
on the character count, which agrees with the byte count on all-ASCII
input (non-ASCII characters are rejected by both, via `InvalidCharacter`). -/
def Name.from_str (s : List Char) : Except NameParseError Name :=
  if s.length > 254 then .error (.TotalLengthGreaterThan255 s.length)
  else if s = ['.'] then .ok ⟨[0]⟩
  else (from_str_go s [0] 0 0).map fun bytes => ⟨bytes⟩

/-- Per-label validation used by `do_parse_name` (names.rs lines 214-219):
hyphen forbidden at index 0, every byte a letter/digit/hyphen. -/
def label_chars (first : Bool) : List Nat → Except NameParseError (List Nat)
  | [] => .ok []
  | c :: cs =>
    if first ∧ c = 45 then .error .HypenFirstCharacterInLabel
    else if is_name_byte c then (label_chars false cs).map fun r => c :: r
    else .error (.InvalidCharacter (Char.ofNat c))

/-- `do_parse_name` (src/names.rs lines 182-241): length-tagged labels,
terminating zero, and the compression-pointer branch that recurses at
`data[offset..]` while consuming only 2 bytes from the current stream.
The source's recursion is unbounded on pointer cycles, so fuel is threaded;
`diverge` marks exhaustion. -/
def do_parse_name : Nat → List Nat → List Nat → List Nat → PR (List Nat)
  | 0, _, _, _ => .diverge
  | _ + 1, [], _, _ => .incomplete 1
  | fuel + 1, length :: out, data, name =>
    if length = 0 then
      let name2 := name ++ [0]
      if name2.length > 255 then .perror (.nameErr (.TotalLengthGreaterThan255 name2.length))
      else .done out name2
    else if length ≤ 63 then
      let name2 := name ++ [length]
      let newlength := name2.length + length + 1
      if newlength > 255 then .perror (.nameErr (.TotalLengthGreaterThan255 newlength))
      else if out.length < length then .incomplete length
      else
        match label_chars true (out.take length) with
        | .error e => .perror (.nameErr e)
        | .ok bs => do_parse_name fuel (out.drop length) data (name2 ++ bs)
    else if 192 ≤ length ∧ length ≤ 255 then
      match out with
      | [] => .incomplete 2
      | b2 :: tl =>
        let offset := Nat.land length 63 * 256 + b2
        if data.length < offset then .incomplete offset
        else
          match do_parse_name fuel (data.drop offset) data name with
          | .done _ nm => .done tl nm
          | x => x
    else .perror (.nameErr (.LabelLengthGreaterThan63 length))

/-- `parse_name` (src/names.rs lines 176-180): run `do_parse_name` with an
empty accumulator and wrap the bytes in a `Name`. -/
def parse_name (fuel : Nat) (i data : List Nat) : PR Name :=
  match do_parse_name fuel i data [] with
  | .done rest nm => .done rest ⟨nm⟩
  | .perror e => .perror e
  | .incomplete n => .incomplete n
  | .panic => .panic
  | .diverge => .diverge

-- ## Header (src/header.rs)

/-- `Opcode` from src/header.rs. -/
inductive Opcode where
  | Query | InverseQuery | Status
  | Unknown (value : Nat)
deriving DecidableEq, Repr

/-- `Rcode` from src/header.rs. -/
inductive Rcode where
  | NoError | FormatError | ServerFailure | NameError | NotImplemented | Refused
  | Unknown (value : Nat)
deriving DecidableEq, Repr

/-- `Header` from src/header.rs; the four counts are `u16` values. -/
structure Header where
  id : Nat
  qr : Bool
  opcode : Opcode
  authoritative : Bool
  truncated : Bool
  recursion_desired : Bool
  recursion_available : Bool
  rcode : Rcode
  question_count : Nat
  answer_count : Nat
  ns_count : Nat
  additional_count : Nat
deriving DecidableEq, Repr

def opcode_from (bits : Nat) : Opcode :=
  match bits with
  | 0 => .Query
  | 1 => .InverseQuery
  | 2 => .Status
  | x => .Unknown x

def rcode_from (bits : Nat) : Rcode :=
  match bits with
  | 0 => .NoError
  | 1 => .FormatError
  | 2 => .ServerFailure
  | 3 => .NameError
  | 4 => .NotImplemented
  | 5 => .Refused
  | x => .Unknown x

/-- `Header::query` (src/header.rs lines 69-84). -/
def Header.query (id : Nat) (opcode : Opcode) (recursion_desired : Bool)
    (questions : Nat) : Header :=
  { id := id, qr := false, opcode := opcode, authoritative := false,
    truncated := false, recursion_desired := recursion_desired,
    recursion_available := false, rcode := .NoError,
    question_count := questions, answer_count := 0, ns_count := 0,
    additional_count := 0 }

/-- `Header::response` (src/header.rs lines 87-102). -/
def Header.response (query : Header) (recursion_available : Bool) : Header :=
  { id := query.id, qr := true, opcode := query.opcode, authoritative := false,
    truncated := false, recursion_desired := query.recursion_desired,
    recursion_available := recursion_available, rcode := .NoError,
    question_count := query.question_count, answer_count := 0, ns_count := 0,
    additional_count := 0 }

/-- `parse_header` with `header_flags` (src/header.rs lines 195-230): 12
bytes — id, the bit-packed flag pair, and the four big-endian counts.  The
nom version reports finer `Needed` sizes for short input; only the
constructor matters to the claims, so short input is `incomplete 12`. -/
def parse_header (i : List Nat) : PR Header :=
  match i with
  | i1 :: i2 :: f1 :: f2 :: q1 :: q2 :: a1 :: a2 :: n1 :: n2 :: r1 :: r2 :: rest =>
    .done rest
      { id := i1 * 256 + i2,
        qr := f1 / 128 % 2 = 1,
        opcode := opcode_from (f1 / 8 % 16),
        authoritative := f1 / 4 % 2 = 1,
        truncated := f1 / 2 % 2 = 1,
        recursion_desired := f1 % 2 = 1,
        recursion_available := f2 / 128 % 2 = 1,
        rcode := rcode_from (f2 % 16),
        question_count := q1 * 256 + q2,
        answer_count := a1 * 256 + a2,
        ns_count := n1 * 256 + n2,
        additional_count := r1 * 256 + r2 }
  | _ => .incomplete 12

-- ## Resource records (src/rr.rs, src/rr/parser.rs; the two are identical)

/-- `Class` from src/rr.rs. -/
inductive Class where
  | Internet | Chaos | Hesoid
  | Unknown (value : Nat)
deriving DecidableEq, Repr

/-- IPv4 address as its four octets. -/
structure Ipv4Addr where
  a : Nat
  b : Nat
  c : Nat
  d : Nat
deriving DecidableEq, Repr

/-- IPv6 address as its eight 16-bit groups. -/
structure Ipv6Addr where
  g1 : Nat
  g2 : Nat
  g3 : Nat
  g4 : Nat
  g5 : Nat
  g6 : Nat
  g7 : Nat
  g8 : Nat
deriving DecidableEq, Repr

/-- `ResourceRecord` from src/rr.rs.  `class` is a Lean keyword, so that
field is `rclass` (the name src/rr/writer.rs uses for it); TXT strings are
kept as their UTF-8 bytes. -/
inductive ResourceRecord where
  | A (name : Name) (rclass : Class) (ttl : Int) (addr : Ipv4Addr)
  | AAAA (name : Name) (rclass : Class) (ttl : Int) (addr : Ipv6Addr)
  | CNAME (name : Name) (rclass : Class) (ttl : Int) (cname : Name)
  | SOA (name : Name) (rclass : Class) (ttl : Int) (mname : Name) (rname : Name)
      (serial : Nat) (refresh : Nat) (retry : Nat) (expire : Nat) (minimum : Nat)
  | MX (name : Name) (rclass : Class) (ttl : Int) (preference : Nat) (exchange : Name)
  | NS (name : Name) (rclass : Class) (ttl : Int) (ns_name : Name)
  | OPT (payload_size : Nat) (extended_rcode : Nat) (version : Nat)
      (dnssec_ok : Bool) (data : List Nat)
  | TXT (name : Name) (rclass : Class) (ttl : Int) (data : List (List Nat))
  | Unknown (name : Name) (rtype : Nat) (rclass : Class) (ttl : Int) (data : List Nat)
deriving DecidableEq, Repr

def class_from (value : Nat) : Class :=
  match value with
  | 1 => .Internet
  | 3 => .Chaos
  | 4 => .Hesoid
  | v => .Unknown v

def type_from (value : Nat) : RType :=
  match value with
  | 1 => .A
  | 2 => .NS
  | 5 => .CNAME
  | 6 => .SOA
  | 15 => .MX
  | 16 => .TXT
  | 28 => .AAAA
  | 41 => .OPT
  | v => .Unknown v

def parse_class (i : List Nat) : PR Class :=
  pbind (be_u16 i) fun v r => .done r (class_from v)

def parse_type (i : List Nat) : PR RType :=
  pbind (be_u16 i) fun v r => .done r (type_from v)

/-- `parse_body_a` (src/rr/parser.rs lines 105-116): class, ttl, then
`tag!(b"\x00\x04")` under `add_return_error!(ErrorKind::Custom(403), ...)`
— the code's representation of the invalid-record-length rejection for
`Type::A` — then the four address octets. -/
def parse_body_a (i : List Nat) : PR (Class × Int × Ipv4Addr) :=
  pbind (parse_class i) fun cls i =>
  pbind (be_i32 i) fun ttl i =>
  pbind (add_return_error 403 (tag2 0 4 i)) fun _ i =>
  pbind (be_u8 i) fun a i =>
  pbind (be_u8 i) fun b i =>
  pbind (be_u8 i) fun c i =>
  pbind (be_u8 i) fun d i =>
  .done i (cls, ttl, ⟨a, b, c, d⟩)

def parse_a (i : List Nat) (name : Name) : PR ResourceRecord :=
  pbind (parse_body_a i) fun args i => .done i (.A name args.1 args.2.1 args.2.2)

/-- `parse_body_aaaa` (src/rr/parser.rs lines 129-144): `tag!("\x00\x10")`
under `Custom(405)`, then eight 16-bit groups. -/
def parse_body_aaaa (i : List Nat) : PR (Class × Int × Ipv6Addr) :=
  pbind (parse_class i) fun cls i =>
  pbind (be_i32 i) fun ttl i =>
  pbind (add_return_error 405 (tag2 0 16 i)) fun _ i =>
  pbind (be_u16 i) fun a i =>
  pbind (be_u16 i) fun b i =>
  pbind (be_u16 i) fun c i =>
  pbind (be_u16 i) fun d i =>
  pbind (be_u16 i) fun e i =>
  pbind (be_u16 i) fun f i =>
  pbind (be_u16 i) fun g i =>
  pbind (be_u16 i) fun h i =>
  .done i (cls, ttl, ⟨a, b, c, d, e, f, g, h⟩)

def parse_aaaa (i : List Nat) (name : Name) : PR ResourceRecord :=
  pbind (parse_body_aaaa i) fun args i => .done i (.AAAA name args.1 args.2.1 args.2.2)

/-- `parse_simple_body` (src/rr/parser.rs lines 166-173): class, ttl and the
RDLENGTH field (as `usize`). -/
def parse_simple_body (i : List Nat) : PR (Class × Int × Nat) :=
  pbind (parse_class i) fun cls i =>
  pbind (be_i32 i) fun ttl i =>
  pbind (be_u16 i) fun length i =>
  .done i (cls, ttl, length)

/-- `parse_simple_name` (src/rr/parser.rs lines 157-164).  After the body
fields it parses a name — the source passes its own `data` argument as the
stream and `output` as the pointer buffer, exactly as written — and then
returns `Done(&output[length..], ..)`.  That slice is NOT bounds-checked:
when RDLENGTH exceeds the remaining bytes the Rust code panics, modelled by
the `panic` outcome. -/
def parse_simple_name (fuel : Nat) (data i : List Nat) : PR (Class × Int × Name) :=
  pbind (parse_simple_body i) fun args output =>
  match parse_name fuel data output with
  | .done _ second_name =>
    if args.2.2 ≤ output.length then .done (output.drop args.2.2) (args.1, args.2.1, second_name)
    else .panic
  | .perror e => .perror e
  | .incomplete n => .incomplete n
  | .panic => .panic
  | .diverge => .diverge

def parse_cname (fuel : Nat) (data i : List Nat) (name : Name) : PR ResourceRecord :=
  pbind (parse_simple_name fuel data i) fun args i =>
  .done i (.CNAME name args.1 args.2.1 args.2.2)

def parse_ns (fuel : Nat) (data i : List Nat) (name : Name) : PR ResourceRecord :=
  pbind (parse_simple_name fuel data i) fun args i =>
  .done i (.NS name args.1 args.2.1 args.2.2)

def parse_body_soa_1 (i : List Nat) : PR (Class × Int × Nat) :=
  parse_simple_body i

def parse_body_soa_2 (i : List Nat) : PR (Nat × Nat × Nat × Nat × Nat) :=
  pbind (be_u32 i) fun serial i =>
  pbind (be_u32 i) fun refresh i =>
  pbind (be_u32 i) fun retry i =>
  pbind (be_u32 i) fun expire i =>
  pbind (be_u32 i) fun minimum i =>
  .done i (serial, refresh, retry, expire, minimum)

/-- `parse_soa` (src/rr/parser.rs lines 186-228).  Unlike CNAME/NS/MX this
branch guards `output.len() < length` before the final
`Done(&output[length..], ..)`, so it cannot panic. -/
def parse_soa (fuel : Nat) (data i : List Nat) (name : Name) : PR ResourceRecord :=
  pbind (parse_body_soa_1 i) fun args output =>
  if output.length < args.2.2 then .incomplete (args.2.2 - output.length)
  else
    match parse_name fuel data output with
    | .done o2 mname =>
      match parse_name fuel data o2 with
      | .done o3 rname =>
        match parse_body_soa_2 o3 with
        | .done _ nums =>
          .done (output.drop args.2.2)
            (.SOA name args.1 args.2.1 mname rname nums.1 nums.2.1 nums.2.2.1
              nums.2.2.2.1 nums.2.2.2.2)
        | .perror e => .perror e
        | .incomplete n => .incomplete n
        | .panic => .panic
        | .diverge => .diverge
      | .perror e => .perror e
      | .incomplete n => .incomplete n
      | .panic => .panic
      | .diverge => .diverge
    | .perror e => .perror e
    | .incomplete n => .incomplete n
    | .panic => .panic
    | .diverge => .diverge

def parse_body_opt (i : List Nat) : PR (Nat × Nat × Nat × Nat × List Nat) :=
  pbind (be_u16 i) fun payload_size i =>
  pbind (be_u8 i) fun rcode i =>
  pbind (be_u8 i) fun version i =>
  pbind (be_u16 i) fun flags i =>
  pbind (be_u16 i) fun length i =>
  pbind (take_n length i) fun data i =>
  .done i (payload_size, rcode, version, flags, data)

/-- `parse_opt` (src/rr/parser.rs lines 250-265): rejects a non-root name
with `ErrorKind::Custom(410)` (the OPT-name-not-root error). -/
def parse_opt (i : List Nat) (name : Name) : PR ResourceRecord :=
  if ¬ name.is_root then .perror (.code 410)
  else
    pbind (parse_body_opt i) fun args i =>
    .done i (.OPT args.1 args.2.1 args.2.2.1
      (Nat.land args.2.2.2.1 32768 ≠ 0) args.2.2.2.2)

/-- `parse_body_mx` (src/rr/parser.rs lines 294-302): the source computes
`(length - 2) as usize` on the `u16` RDLENGTH.  For RDLENGTH < 2 that
subtraction underflows (panic in a debug build); the release build wraps
modulo 2^16, reproduced here, and the wrapped value then drives the
unchecked slice in `parse_mx`. -/
def parse_body_mx (i : List Nat) : PR (Class × Int × Nat × Nat) :=
  pbind (parse_class i) fun cls i =>
  pbind (be_i32 i) fun ttl i =>
  pbind (be_u16 i) fun length i =>
  pbind (be_u16 i) fun preference i =>
  .done i (cls, ttl, (length + 65536 - 2) % 65536, preference)

/-- `parse_mx` (src/rr/parser.rs lines 279-292): same unchecked
`Done(&output[length..], ..)` slice as `parse_simple_name`. -/
def parse_mx (fuel : Nat) (data i : List Nat) (name : Name) : PR ResourceRecord :=
  pbind (parse_body_mx i) fun args output =>
  match parse_name fuel data output with
  | .done _ exchange =>
    if args.2.2.1 ≤ output.length then
      .done (output.drop args.2.2.1) (.MX name args.1 args.2.1 args.2.2.2 exchange)
    else .panic
  | .perror e => .perror e
  | .incomplete n => .incomplete n
  | .panic => .panic
  | .diverge => .diverge

/-- UTF-8 validity of a byte list (RFC 3629 ranges), standing for the
`str::from_utf8` check inside nom's `take_str!`. -/
def utf8_valid : List Nat → Bool
  | [] => true
  | c :: r =>
    if c < 128 then utf8_valid r
    else if 194 ≤ c ∧ c ≤ 223 then
      match r with
      | c2 :: r2 => (128 ≤ c2 && c2 ≤ 191) && utf8_valid r2
      | _ => false
    else if 224 ≤ c ∧ c ≤ 239 then
      match r with
      | c2 :: c3 :: r3 =>
        (if c = 224 then 160 ≤ c2 && c2 ≤ 191
         else if c = 237 then 128 ≤ c2 && c2 ≤ 159
         else 128 ≤ c2 && c2 ≤ 191) &&
        (128 ≤ c3 && c3 ≤ 191) && utf8_valid r3
      | _ => false
    else if 240 ≤ c ∧ c ≤ 244 then
      match r with
      | c2 :: c3 :: c4 :: r4 =>
        (if c = 240 then 144 ≤ c2 && c2 ≤ 191
         else if c = 244 then 128 ≤ c2 && c2 ≤ 143
         else 128 ≤ c2 && c2 ≤ 191) &&
        (128 ≤ c3 && c3 ≤ 191) && (128 ≤ c4 && c4 ≤ 191) && utf8_valid r4
      | _ => false
    else false

/-- `parse_char_string` (src/rr/parser.rs lines 324-330): one Pascal-style
character string, whose bytes must be valid UTF-8 (`take_str!`). -/
def parse_char_string (i : List Nat) : PR (List Nat) :=
  pbind (be_u8 i) fun length i =>
  if i.length < length then .incomplete length
  else if utf8_valid (i.take length) then .done (i.drop length) (i.take length)
  else .perror .mapResFailed

/-- nom `many1!(parse_char_string)` over the RDLENGTH-sized slice: at least
one string; a later failure stops collection; `incomplete` propagates.
Each string consumes at least one byte, so `fuel := slice length + 1`
suffices. -/
def many1_char_strings : Nat → List Nat → PR (List (List Nat))
  | 0, _ => .diverge
  | fuel + 1, i =>
    match parse_char_string i with
    | .perror _ => .perror .manyFailed
    | .incomplete n => .incomplete n
    | .panic => .panic
    | .diverge => .diverge
    | .done r v =>
      if r.isEmpty then .done r [v]
      else
        match many1_char_strings fuel r with
        | .done r2 vs => .done r2 (v :: vs)
        | .perror _ => .done r [v]
        | x => x

/-- `parse_body_txt` (src/rr/parser.rs lines 314-322):
`flat_map!(take!(length), many1!(parse_char_string))`. -/
def parse_body_txt (i : List Nat) : PR (Class × Int × List (List Nat)) :=
  pbind (parse_class i) fun cls i =>
  pbind (be_i32 i) fun ttl i =>
  pbind (be_u16 i) fun length i =>
  pbind (take_n length i) fun chunk i =>
  pbind (many1_char_strings (chunk.length + 1) chunk) fun strs _ =>
  .done i (cls, ttl, strs)

def parse_txt (i : List Nat) (name : Name) : PR ResourceRecord :=
  pbind (parse_body_txt i) fun args i =>
  .done i (.TXT name args.1 args.2.1 args.2.2)

def parse_body_unknown (i : List Nat) : PR (Class × Int × List Nat) :=
  pbind (parse_class i) fun cls i =>
  pbind (be_i32 i) fun ttl i =>
  pbind (be_u16 i) fun length i =>
  pbind (take_n length i) fun data i =>
  .done i (cls, ttl, data)

def parse_unknown (i : List Nat) (name : Name) (rtype : Nat) : PR ResourceRecord :=
  pbind (parse_body_unknown i) fun args i =>
  .done i (.Unknown name rtype args.1 args.2.1 args.2.2)

/-- `parse_record` (src/rr/parser.rs lines 40-68).  The call sites in
src/message.rs bind the first argument to the current stream and the second
to the whole message buffer; the owner name, the 16-bit type, and the
per-type body parsers follow the source's dispatch, with a type-parse error
wrapped by `error_node_position!(ErrorKind::Custom(401), ..)`. -/
def parse_record (fuel : Nat) (data i : List Nat) : PR ResourceRecord :=
  match parse_name fuel data i with
  | .done output name =>
    match parse_type output with
    | .done output rtype =>
      match rtype with
      | .A => parse_a output name
      | .AAAA => parse_aaaa output name
      | .CNAME => parse_cname fuel data output name
      | .SOA => parse_soa fuel data output name
      | .OPT => parse_opt output name
      | .MX => parse_mx fuel data output name
      | .NS => parse_ns fuel data output name
      | .TXT => parse_txt output name
      | .Unknown a => parse_unknown output name a
    | .perror e => .perror (.node 401 e)
    | .incomplete n => .incomplete n
    | .panic => .panic
    | .diverge => .diverge
  | .perror e => .perror e
  | .incomplete n => .incomplete n
  | .panic => .panic
  | .diverge => .diverge

-- ## Questions (src/question.rs)

/-- `QType` from src/question.rs. -/
inductive QType where
  | ByType (t : RType)
  | ZoneTransfer
  | MailRecords
  | All
deriving DecidableEq, Repr

/-- Modelled from the spec: src/question.rs matches on an Option-returning
`type_from` that is absent from src (the rr.rs revision in src returns a
total `Type` with an `Unknown` variant); per spec sections 3 and 6 the known
type codes map to concrete types and anything else is unrecognized. -/
def type_from_opt (value : Nat) : Option RType :=
  match value with
  | 1 => some .A
  | 2 => some .NS
  | 5 => some .CNAME
  | 6 => some .SOA
  | 15 => some .MX
  | 16 => some .TXT
  | 28 => some .AAAA
  | 41 => some .OPT
  | _ => none

/-- `qtype_from` (src/question.rs lines 50-60). -/
def qtype_from (bits : Nat) : Option QType :=
  match type_from_opt bits with
  | some t => some (.ByType t)
  | none =>
    match bits with
    | 252 => some .ZoneTransfer
    | 253 => some .MailRecords
    | 255 => some .All
    | _ => none

/-- `Question` from src/question.rs. -/
structure Question where
  qname : Name
  qtype : QType
  qclass : Class
deriving DecidableEq, Repr

/-- `parse_fields` (src/question.rs lines 62-67): `map_opt!(be_u16,
qtype_from)` then the class. -/
def parse_fields (i : List Nat) : PR (QType × Class) :=
  pbind (be_u16 i) fun bits i =>
  match qtype_from bits with
  | none => .perror .mapOptFailed
  | some qtype =>
    pbind (parse_class i) fun qclass i =>
    .done i (qtype, qclass)

/-- `parse_question` (src/question.rs lines 35-48); the call sites in
src/message.rs bind `data` to the current stream and `i` to the whole
message buffer, and the body forwards them to `parse_name` positionally. -/
def parse_question (fuel : Nat) (data i : List Nat) : PR Question :=
  match parse_name fuel data i with
  | .done output name =>
    pbind (parse_fields output) fun args i =>
    .done i ⟨name, args.1, args.2⟩
  | .perror e => .perror e
  | .incomplete n => .incomplete n
  | .panic => .panic
  | .diverge => .diverge

-- ## Messages (src/message.rs)

/-- `Message` from src/message.rs. -/
structure Message where
  header : Header
  questions : List Question
  answers : List ResourceRecord
  authorities : List ResourceRecord
  additionals : List ResourceRecord
deriving DecidableEq, Repr

/-- `Message::query` (src/message.rs lines 73-81); `questions.len() as u16`
is the length reduced modulo 2^16. -/
def Message.query (id : Nat) (recursion_desired : Bool)
    (questions : List Question) : Message :=
  { header := Header.query id .Query recursion_desired (questions.length % 65536),
    questions := questions, answers := [], authorities := [], additionals := [] }

/-- `Message::response` (src/message.rs lines 84-92). -/
def Message.response (query : Message) (recursion_available : Bool) : Message :=
  { header := Header.response query.header recursion_available,
    questions := query.questions, answers := [], authorities := [],
    additionals := [] }

/-- `Message::push_answer` (src/message.rs lines 95-98); the `u16`
increment wraps modulo 2^16 (a debug build would panic at 65535). -/
def Message.push_answer (m : Message) (ans : ResourceRecord) : Message :=
  { m with header := { m.header with answer_count := (m.header.answer_count + 1) % 65536 },
           answers := m.answers ++ [ans] }

/-- `Message::push_authority` (src/message.rs lines 101-104). -/
def Message.push_authority (m : Message) (auth : ResourceRecord) : Message :=
  { m with header := { m.header with ns_count := (m.header.ns_count + 1) % 65536 },
           authorities := m.authorities ++ [auth] }

/-- `Message::push_additional` (src/message.rs lines 107-110). -/
def Message.push_additional (m : Message) (additional : ResourceRecord) : Message :=
  { m with header := { m.header with additional_count := (m.header.additional_count + 1) % 65536 },
           additionals := m.additionals ++ [additional] }

/-- `parse_questions` (src/message.rs lines 140-157): up to `count`
questions; an `Incomplete` from `parse_question` ends the loop with the
questions collected so far (`Incomplete(_) => return Done(input, questions)`). -/
def parse_questions (fuel : Nat) (i data : List Nat) : Nat → PR (List Question)
  | 0 => .done i []
  | count + 1 =>
    match parse_question fuel i data with
    | .done i2 q =>
      match parse_questions fuel i2 data count with
      | .done rest qs => .done rest (q :: qs)
      | x => x
    | .incomplete _ => .done i []
    | .perror e => .perror e
    | .panic => .panic
    | .diverge => .diverge

/-- `parse_records` (src/message.rs lines 159-176): same loop shape over
`parse_record`. -/
def parse_records (fuel : Nat) (i data : List Nat) : Nat → PR (List ResourceRecord)
  | 0 => .done i []
  | count + 1 =>
    match parse_record fuel i data with
    | .done i2 rr =>
      match parse_records fuel i2 data count with
      | .done rest rrs => .done rest (rr :: rrs)
      | x => x
    | .incomplete _ => .done i []
    | .perror e => .perror e
    | .panic => .panic
    | .diverge => .diverge

/-- `do_parse_message` (src/message.rs lines 113-138): header, questions
(early return with empty record sections when fewer questions than declared
were parsed), then the three record sections.  The final `Done(i, ..)`
keeps whatever trailing bytes remain in `i`. -/
def do_parse_message (fuel : Nat) (data : List Nat) : PR Message :=
  pbind (parse_header data) fun header i =>
  pbind (parse_questions fuel i data header.question_count) fun questions i =>
  if questions.length ≠ header.question_count then
    .done i { header := header, questions := questions, answers := [],
              authorities := [], additionals := [] }
  else
    pbind (parse_records fuel i data header.answer_count) fun answers i =>
    pbind (parse_records fuel i data header.ns_count) fun authorities i =>
    pbind (parse_records fuel i data header.additional_count) fun additionals i =>
    .done i { header := header, questions := questions, answers := answers,
              authorities := authorities, additionals := additionals }

/-- Result of `Message::parse`. -/
inductive MRes where
  | ok (m : Message)
  | err (e : ParseError)
  | panic
  | diverge
deriving DecidableEq, Repr

/-- `Message::parse` (src/message.rs lines 26-33): `Done(_, m) => Ok(m)` —
the remainder is discarded, accepted or not — while a
`Custom(ParseError)` error surfaces as that error and everything else
becomes `ParseError::Incomplete`. -/
def message_parse (fuel : Nat) (data : List Nat) : MRes :=
  match do_parse_message fuel data with
  | .done _ m => .ok m
  | .perror (.nameErr e) => .err (.NameError e)
  | .perror _ => .err .Incomplete
  | .incomplete _ => .err .Incomplete
  | .panic => .panic
  | .diverge => .diverge

-- ## Record encoding (src/rr/writer.rs)

/-- `std::io::Cursor<Vec<u8>>`: a byte buffer plus a write position. -/
structure Curs where
  buf : List Nat
  pos : Nat
deriving DecidableEq, Repr

/-- `Write::write_all` on a cursor: overwrite from the current position,
extending the buffer as needed, and advance the position. -/
def curs_write (c : Curs) (bs : List Nat) : Curs :=
  ⟨c.buf.take c.pos ++ bs ++ c.buf.drop (c.pos + bs.length), c.pos + bs.length⟩

/-- Big-endian `u16` bytes of a (mod 2^16) value. -/
def u16_be (v : Nat) : List Nat := [v / 256 % 256, v % 256]

/-- Big-endian `u32` bytes. -/
def u32_be (v : Nat) : List Nat :=
  [v / 16777216 % 256, v / 65536 % 256, v / 256 % 256, v % 256]

/-- Big-endian bytes of an `i32` (two's complement). -/
def i32_be (v : Int) : List Nat := u32_be ((v % 4294967296).toNat)

/-- `Into<u16>` for `Type` (spec section 6 code points, the inverse of
`type_from`). -/
def type_value : RType → Nat
  | .A => 1
  | .NS => 2
  | .CNAME => 5
  | .SOA => 6
  | .MX => 15
  | .TXT => 16
  | .AAAA => 28
  | .OPT => 41
  | .Unknown v => v

/-- `Into<u16>` for `Class` (inverse of `class_from`). -/
def class_value : Class → Nat
  | .Internet => 1
  | .Chaos => 3
  | .Hesoid => 4
  | .Unknown v => v

/-- `write_name` (src/names.rs `Name::write_to`): the owned wire bytes,
verbatim, no compression. -/
def write_name (n : Name) (c : Curs) : Curs := curs_write c n.name

/-- `write_data` (src/rr/writer.rs lines 8-22): fixed-body records write
name, type, class, ttl, the data length and the data. -/
def write_data (name : Name) (rtype : RType) (rclass : Class) (ttl : Int)
    (data : List Nat) (c : Curs) : Curs :=
  let c := write_name name c
  let c := curs_write c (u16_be (type_value rtype % 65536))
  let c := curs_write c (u16_be (class_value rclass % 65536))
  let c := curs_write c (i32_be ttl)
  let c := curs_write c (u16_be (data.length % 65536))
  curs_write c data

/-- The back-patching pattern shared by the CNAME/SOA/MX/NS arms of
`write_rr` (src/rr/writer.rs): record `start = cursor.position()`, write a
2-byte zero placeholder, write the body, then seek back and write
`(end - start) as u16` before restoring the end position.  Note `start` is
taken BEFORE the placeholder, so the patched value counts the placeholder's
own 2 bytes. -/
def write_with_length (body : Curs → Curs) (c : Curs) : Curs :=
  let start := c.pos
  let c := curs_write c (u16_be 0)
  let c := body c
  let e := c.pos
  let c2 := curs_write ⟨c.buf, start⟩ (u16_be ((e - start) % 65536))
  ⟨c2.buf, e⟩

/-- `write_rr` (src/rr/writer.rs lines 24-137). -/
def write_rr (rr : ResourceRecord) (c : Curs) : Curs :=
  match rr with
  | .OPT payload_size extended_rcode version dnssec_ok data =>
    let c := curs_write c [0]
    let c := curs_write c (u16_be (type_value .OPT))
    let c := curs_write c (u16_be (payload_size % 65536))
    let c := curs_write c [extended_rcode % 256]
    let c := curs_write c [version % 256]
    let c := curs_write c (u16_be (if dnssec_ok then 32768 else 0))
    let c := curs_write c (u16_be (data.length % 65536))
    curs_write c data
  | .A name rclass ttl addr =>
    write_data name .A rclass ttl [addr.a, addr.b, addr.c, addr.d] c
  | .AAAA name rclass ttl addr =>
    write_data name .AAAA rclass ttl
      (u16_be addr.g1 ++ u16_be addr.g2 ++ u16_be addr.g3 ++ u16_be addr.g4 ++
       u16_be addr.g5 ++ u16_be addr.g6 ++ u16_be addr.g7 ++ u16_be addr.g8) c
  | .CNAME name rclass ttl cname =>
    let c := write_name name c
    let c := curs_write c (u16_be (type_value .CNAME))
    let c := curs_write c (u16_be (class_value rclass % 65536))
    let c := curs_write c (i32_be ttl)
    write_with_length (fun c => write_name cname c) c
  | .SOA name rclass ttl mname rname serial refresh retry expire minimum =>
    let c := write_name name c
    let c := curs_write c (u16_be (type_value .SOA))
    let c := curs_write c (u16_be (class_value rclass % 65536))
    let c := curs_write c (i32_be ttl)
    write_with_length (fun c =>
      let c := write_name mname c
      let c := write_name rname c
      let c := curs_write c (u32_be (serial % 4294967296))
      let c := curs_write c (u32_be (refresh % 4294967296))
      let c := curs_write c (u32_be (retry % 4294967296))
      let c := curs_write c (u32_be (expire % 4294967296))
      curs_write c (u32_be (minimum % 4294967296))) c
  | .MX name rclass ttl preference exchange =>
    let c := write_name name c
    let c := curs_write c (u16_be (type_value .MX))
    let c := curs_write c (u16_be (class_value rclass % 65536))
    let c := curs_write c (i32_be ttl)
    write_with_length (fun c =>
      let c := curs_write c (u16_be (preference % 65536))
      write_name exchange c) c
  | .NS name rclass ttl ns_name =>
    let c := write_name name c
    let c := curs_write c (u16_be (type_value .NS))
    let c := curs_write c (u16_be (class_value rclass % 65536))
    let c := curs_write c (i32_be ttl)
    write_with_length (fun c => write_name ns_name c) c
  | .TXT name rclass ttl _ =>
    write_data name .TXT rclass ttl [] c
  | .Unknown name rtype rclass ttl data =>
    write_data name (.Unknown rtype) rclass ttl data c

-- ## Resolver (src/resolve.rs)

/-- `std::net::IpAddr`. -/
inductive IpAddr where
  | V4 (addr : Ipv4Addr)
  | V6 (addr : Ipv6Addr)
deriving DecidableEq, Repr

/-- `ResolveError` from src/resolve.rs; `RecursiveLookupFailed` boxes a
nested error, and the transport-side variants (`IOError`, `InvalidHost`,
`DeseralizationFailed` — source spelling) are payload-free here since the
model treats the transport as an oracle. -/
inductive ResolveError where
  | ExceededMaximumLookupDepth (n : Nat)
  | NoSuchDomain
  | RecursiveLookupFailed (e : ResolveError)
  | IOError
  | InvalidHost
  | DeseralizationFailed
deriving DecidableEq, Repr

/-- `get_answer` (src/resolve.rs lines 76-88): `None` exactly when
`answers` is EMPTY; otherwise `Some` of the A/AAAA addresses filtered from
the answer section, in order — possibly an empty list. -/
def get_answer (msg : Message) : Option (List IpAddr) :=
  if msg.answers.length = 0 then none
  else
    some (msg.answers.filterMap fun rr =>
      match rr with
      | .A _ _ _ addr => some (.V4 addr)
      | .AAAA _ _ _ addr => some (.V6 addr)
      | _ => none)

/-- `get_glue` (src/resolve.rs lines 90-97): first A/AAAA address in the
additional section. -/
def get_glue (msg : Message) : Option IpAddr :=
  msg.additionals.findSome? fun rr =>
    match rr with
    | .A _ _ _ addr => some (.V4 addr)
    | .AAAA _ _ _ addr => some (.V6 addr)
    | _ => none

/-- `get_ns` (src/resolve.rs lines 99-105): first NS target name in the
authority section (the source stringifies it; the model keeps the `Name`). -/
def get_ns (msg : Message) : Option Name :=
  msg.authorities.findSome? fun rr =>
    match rr with
    | .NS _ _ _ ns_name => some ns_name
    | _ => none

/-- Outcome of one top-level `resolve` call: `Ok(addrs)`, `Err(e)`, or the
`.expect("No results is returned as an error")` panic on line 33. -/
inductive ROut where
  | ok (addrs : List IpAddr)
  | err (e : ResolveError)
  | panicked
deriving DecidableEq, Repr

/-- `MAX_LOOKUPS` (src/resolve.rs line 9). -/
def MAX_LOOKUPS : Nat := 20

/-- The `for _ in 0..MAX_LOOKUPS` loop of `resolve` (src/resolve.rs lines
13-35), for a fixed host.  `query k ns` is the transport oracle for the
k-th round trip (`dns_query`, covering send/receive/decode), `nested` the
oracle for the nested `resolve(&ns)` call on an NS target name.  The
returned `Nat` counts the query round trips performed.  `resolve` unwraps
the first nested address with `.expect(..)`, which panics when the nested
call returns `Ok(vec![])`. -/
def resolve_go (query : Nat → IpAddr → Except ResolveError Message)
    (nested : Name → Except ResolveError (List IpAddr)) :
    Nat → Nat → IpAddr → ROut × Nat
  | 0, _, _ => (.err (.ExceededMaximumLookupDepth MAX_LOOKUPS), 0)
  | n + 1, k, nameserver =>
    match query k nameserver with
    | .error e => (.err e, 1)
    | .ok reply =>
      if reply.header.authoritative = true ∧ reply.header.rcode = .NameError then
        (.err .NoSuchDomain, 1)
      else
        match get_answer reply with
        | some addrs => (.ok addrs, 1)
        | none =>
          match get_glue reply with
          | some glue =>
            let r := resolve_go query nested n (k + 1) glue
            (r.1, r.2 + 1)
          | none =>
            match get_ns reply with
            | some ns =>
              match nested ns with
              | .error e => (.err (.RecursiveLookupFailed e), 1)
              | .ok addrs =>
                match addrs with
                | [] => (.panicked, 1)
                | a :: _ =>
                  let r := resolve_go query nested n (k + 1) a
                  (r.1, r.2 + 1)
            | none =>
              let r := resolve_go query nested n (k + 1) nameserver
              (r.1, r.2 + 1)

/-- The well-known root server `resolve` starts from (src/resolve.rs
line 12). -/
def root_nameserver : IpAddr := .V4 ⟨198, 41, 0, 4⟩

/-- One top-level `resolve` call (src/resolve.rs lines 11-37): run the loop
from the root nameserver with the `MAX_LOOKUPS` budget; falling out of the
loop yields `Err(ExceededMaximumLookupDepth(MAX_LOOKUPS))`. -/
def resolve_model (query : Nat → IpAddr → Except ResolveError Message)
    (nested : Name → Except ResolveError (List IpAddr)) : ROut × Nat :=
  resolve_go query nested MAX_LOOKUPS 0 root_nameserver

-- ## Specification-side predicates used by the theorems

/-- Wire-form validity of one label's bytes: no leading hyphen, all bytes
letters/digits/hyphen. -/
def label_ok : List Nat → Bool
  | [] => true
  | b :: r => (b != 45) && is_name_byte b && r.all is_name_byte

/-- A byte sequence that is a concatenation of well-formed labels: each a
length byte in `1..=63` followed by that many `label_ok` bytes. -/
inductive Chunks : List Nat → Prop where
  | nil : Chunks []
  | cons (L : Nat) (bs rest : List Nat) :
      1 ≤ L → L ≤ 63 → bs.length = L → label_ok (bs) = true →
      Chunks rest → Chunks (L :: (bs ++ rest))

/-- Messages obtainable through the construction helpers of
src/message.rs: `Message::query`, `Message::response`, and the three
`push_*` mutators. -/
inductive Built : Message → Prop where
  | query (id : Nat) (rd : Bool) (qs : List Question) : Built (Message.query id rd qs)
  | response (q : Message) (ra : Bool) : Built q → Built (Message.response q ra)
  | push_answer (m : Message) (rr : ResourceRecord) : Built m → Built (m.push_answer rr)
  | push_authority (m : Message) (rr : ResourceRecord) : Built m → Built (m.push_authority rr)
  | push_additional (m : Message) (rr : ResourceRecord) : Built m → Built (m.push_additional rr)

/-- A reply carrying no usable information for the resolver: not an
authoritative NameError, no answers, no glue, no NS authority. -/
def no_info (m : Message) : Prop :=
  ¬(m.header.authoritative = true ∧ m.header.rcode = .NameError) ∧
  get_answer m = none ∧ get_glue m = none ∧ get_ns m = none

-- ## Concrete inputs used by the theorems

/-- The root name ".". -/
def root_name : Name := ⟨[0]⟩

/-- An MX resource record with RDLENGTH = 0: owner name `.` then TYPE=15,
CLASS=1, TTL=0, RDLENGTH=0, a 2-byte preference slot, and one more byte so
the exchange-name parse succeeds before the unchecked slice. -/
def c1_mx_input : List Nat := [0, 0, 15, 0, 1, 0, 0, 0, 0, 0, 0, 0, 0, 0]

/-- A CNAME resource record whose RDLENGTH (100) exceeds the single byte
remaining after the class/ttl/length fields. -/
def c1_cname_input : List Nat := [0, 0, 5, 0, 1, 0, 0, 0, 0, 0, 100, 0]

/-- A 12-byte header declaring zero items in every section, followed by one
trailing garbage byte. -/
def c3_input : List Nat := [0, 0, 0, 0, 0, 0, 0, 0, 0, 0, 0, 0, 171]

/-- The message encoded by the first 12 bytes of `c3_input`. -/
def zero_message : Message :=
  { header := { id := 0, qr := false, opcode := .Query, authoritative := false,
                truncated := false, recursion_desired := false,
                recursion_available := false, rcode := .NoError,
                question_count := 0, answer_count := 0, ns_count := 0,
                additional_count := 0 },
    questions := [], answers := [], authorities := [], additionals := [] }

/-- A header declaring one question, with the buffer ending right after the
header (the question section is truncated away). -/
def c5_truncated_input : List Nat := [0, 1, 0, 0, 0, 1, 0, 0, 0, 0, 0, 0]

/-- What `Message::parse` produces for `c5_truncated_input`: the header
still declares one question while the question list is empty. -/
def c5_truncated_msg : Message :=
  { header := { id := 1, qr := false, opcode := .Query, authoritative := false,
                truncated := false, recursion_desired := false,
                recursion_available := false, rcode := .NoError,
                question_count := 1, answer_count := 0, ns_count := 0,
                additional_count := 0 },
    questions := [], answers := [], authorities := [], additionals := [] }

/-- A header declaring one answer record, with the buffer ending right
after the header (the answer section is truncated away). -/
def c10_truncated_input : List Nat := [0, 2, 0, 0, 0, 0, 0, 1, 0, 0, 0, 0]

/-- What `Message::parse` produces for `c10_truncated_input`: the header
still declares one answer while the answer list is empty. -/
def c10_truncated_msg : Message :=
  { header := { id := 2, qr := false, opcode := .Query, authoritative := false,
                truncated := false, recursion_desired := false,
                recursion_available := false, rcode := .NoError,
                question_count := 0, answer_count := 1, ns_count := 0,
                additional_count := 0 },
    questions := [], answers := [], authorities := [], additionals := [] }

/-- The 51-byte buffer of the `name_parse_bytes_test` fixture in
src/names.rs: `F.ISI.ARPA.` spelled at offset 20, a pointer `C0 14` to
offset 20 at offset 44, a root label at 46, then `abcd`. -/
def nbuf : List Nat :=
  [49, 50, 51, 52, 53, 54, 55, 56, 57, 48, 49, 50, 51, 52, 53, 54, 55, 56, 57, 48,
   1, 70, 3, 73, 83, 73, 4, 65, 82, 80, 65, 0,
   49, 50, 51, 52, 53, 54, 55, 56,
   3, 70, 79, 79, 192, 20, 0, 97, 98, 99, 100]

/-- The wire bytes of `F.ISI.ARPA.`. -/
def f_isi_arpa : Name := ⟨[1, 70, 3, 73, 83, 73, 4, 65, 82, 80, 65, 0]⟩

/-- A reply whose answer section holds exactly one CNAME record — no A or
AAAA record anywhere. -/
def cname_only_reply : Message :=
  { header := { id := 1, qr := true, opcode := .Query, authoritative := false,
                truncated := false, recursion_desired := false,
                recursion_available := false, rcode := .NoError,
                question_count := 1, answer_count := 1, ns_count := 0,
                additional_count := 0 },
    questions := [], answers := [.CNAME root_name .Internet 0 root_name],
    authorities := [], additionals := [] }

/-- A reply with no answers, no glue and no NS authority (and not an
authoritative NameError). -/
def no_info_reply : Message :=
  { header := { id := 1, qr := true, opcode := .Query, authoritative := false,
                truncated := false, recursion_desired := false,
                recursion_available := false, rcode := .NoError,
                question_count := 0, answer_count := 0, ns_count := 0,
                additional_count := 0 },
    questions := [], answers := [], authorities := [], additionals := [] }

-- ## Helper lemmas

/-- The question-section loop never reports `incomplete`: a truncated
question ends the loop with the items collected so far. -/
theorem parse_questions_not_incomplete (fuel : Nat) :
    ∀ (count : Nat) (i data : List Nat),
      (parse_questions fuel i data count).isIncomplete = false := by
  intro count
  induction count with
  | zero => intro i data; rfl
  | succ n ih =>
    intro i data
    simp only [parse_questions]
    cases hq : parse_question fuel i data with
    | done i2 q =>
      cases hr : parse_questions fuel i2 data n with
      | incomplete m =>
        have := ih i2 data
        rw [hr] at this
        exact absurd this (by simp [PR.isIncomplete])
      | done rest qs => simp [hr, PR.isIncomplete]
      | perror e => simp [hr, PR.isIncomplete]
      | panic => simp [hr, PR.isIncomplete]
      | diverge => simp [hr, PR.isIncomplete]
    | perror e => rfl
    | incomplete n2 => rfl
    | panic => rfl
    | diverge => rfl

/-- The record-section loop never reports `incomplete` either. -/
theorem parse_records_not_incomplete (fuel : Nat) :
    ∀ (count : Nat) (i data : List Nat),
      (parse_records fuel i data count).isIncomplete = false := by
  intro count
  induction count with
  | zero => intro i data; rfl
  | succ n ih =>
    intro i data
    simp only [parse_records]
    cases hq : parse_record fuel i data with
    | done i2 q =>
      cases hr : parse_records fuel i2 data n with
      | incomplete m =>
        have := ih i2 data
        rw [hr] at this
        exact absurd this (by simp [PR.isIncomplete])
      | done rest qs => simp [hr, PR.isIncomplete]
      | perror e => simp [hr, PR.isIncomplete]
      | panic => simp [hr, PR.isIncomplete]
      | diverge => simp [hr, PR.isIncomplete]
    | perror e => rfl
    | incomplete n2 => rfl
    | panic => rfl
    | diverge => rfl

-- ## Claim theorems

/-- C1: the claim states record parsing is total — an MX record with
RDLENGTH < 2, or a CNAME record whose RDLENGTH exceeds the remaining
bytes, should produce an error rather than a crash.  The code violates
this: on `c1_mx_input` the `(length - 2)` underflow in `parse_body_mx`
followed by the unchecked `&output[length..]` slice panics, and on
`c1_cname_input` the unchecked slice in `parse_simple_name` panics. -/
theorem c1_record_parsing_panics :
    parse_record 64 c1_mx_input c1_mx_input = .panic ∧
    parse_record 64 c1_cname_input c1_cname_input = .panic := by
  exact ⟨rfl, rfl⟩

/-- C2: the claim states `resolve` reaches Done exactly when the answer
section holds at least one A/AAAA record.  The code instead tests
`answers.len() == 0`, so a reply whose answers are a single CNAME makes
`get_answer` return `Some([])` and `resolve` return `Ok([])` — Done with
an empty address list after one query — contradicting the claim and the
code's own `.expect("No results is returned as an error")`. -/
theorem c2_cname_only_answer_is_done :
    get_answer cname_only_reply = some [] ∧
    resolve_model (fun _ _ => .ok cname_only_reply) (fun _ => .error .NoSuchDomain)
      = (.ok [], 1) := by
  exact ⟨rfl, rfl⟩

/-- C3 counterexample: a well-formed empty message followed by one garbage
byte is accepted by `Message::parse`, not rejected as a format error. -/
theorem c3_trailing_garbage_accepted :
    message_parse 64 c3_input = .ok zero_message := by
  rfl

/-- C3 amended: `Message::parse` ignores trailing bytes — whenever section
parsing succeeds, the message is returned regardless of what remains
unconsumed (`Done(_, m) => Ok(m)` in src/message.rs line 29). -/
theorem c3_parse_ignores_trailing (fuel : Nat) (data rest : List Nat) (m : Message)
    (h : do_parse_message fuel data = .done rest m) :
    message_parse fuel data = .ok m := by
  simp [message_parse, h]

/-- C3 witness: the amended statement applied to the concrete
trailing-garbage buffer. -/
theorem c3_parse_ignores_trailing_witness :
    do_parse_message 64 c3_input = .done [171] zero_message ∧
    message_parse 64 c3_input = .ok zero_message :=
  ⟨rfl, c3_parse_ignores_trailing 64 c3_input [171] zero_message rfl⟩

/-- C4: the claim states the back-patched RDLENGTH equals the RDATA body
length, excluding the 2 placeholder bytes.  The code computes
`end - start` with `start` taken BEFORE the placeholder, so a CNAME (or
NS) record with a 1-byte body gets RDLENGTH = 3: the placeholder's own 2
bytes are included, contradicting the claim and the repo's own decoder. -/
theorem c4_rdlength_includes_placeholder :
    (write_rr (.CNAME root_name .Internet 0 root_name) ⟨[], 0⟩).buf
      = [0, 0, 5, 0, 1, 0, 0, 0, 0, 0, 3, 0] ∧
    (write_rr (.NS root_name .Internet 0 root_name) ⟨[], 0⟩).buf
      = [0, 0, 2, 0, 1, 0, 0, 0, 0, 0, 3, 0] ∧
    ((write_rr (.CNAME root_name .Internet 0 root_name) ⟨[], 0⟩).buf.drop 11).length = 1 := by
  exact ⟨rfl, rfl, rfl⟩

/-- C5 counterexample: parsing is among the claim's listed operations, and
a truncated buffer yields a `Message` whose header declares one question
while the question list is empty — the count/length invariant fails. -/
theorem c5_parse_count_desync :
    message_parse 64 c5_truncated_input = .ok c5_truncated_msg ∧
    c5_truncated_msg.header.question_count = 1 ∧
    c5_truncated_msg.questions.length = 0 := by
  exact ⟨rfl, rfl, rfl⟩

/-- C5 amended: for every message built through `Message::query`,
`Message::response` and the `push_*` helpers, each header count equals the
corresponding list length reduced modulo 2^16 (so they are equal outright
whenever the lists are shorter than 65536); messages obtained by parsing
truncated buffers can violate the invariant. -/
theorem c5_built_counts_mirror_lengths (m : Message) (h : Built m) :
    m.header.question_count = m.questions.length % 65536 ∧
    m.header.answer_count = m.answers.length % 65536 ∧
    m.header.ns_count = m.authorities.length % 65536 ∧
    m.header.additional_count = m.additionals.length % 65536 := by
  induction h with
  | query id rd qs => simp [Message.query, Header.query]
  | response q ra _ ih =>
    refine ⟨?_, by simp [Message.response, Header.response], by simp [Message.response, Header.response], by simp [Message.response, Header.response]⟩
    simpa [Message.response, Header.response] using ih.1
  | push_answer m rr _ ih =>
    refine ⟨by simpa [Message.push_answer] using ih.1, ?_, by simpa [Message.push_answer] using ih.2.2.1, by simpa [Message.push_answer] using ih.2.2.2⟩
    simp [Message.push_answer, ih.2.1, Nat.add_mod_left]
  | push_authority m rr _ ih =>
    refine ⟨by simpa [Message.push_authority] using ih.1, by simpa [Message.push_authority] using ih.2.1, ?_, by simpa [Message.push_authority] using ih.2.2.2⟩
    simp [Message.push_authority, ih.2.2.1]
  | push_additional m rr _ ih =>
    refine ⟨by simpa [Message.push_additional] using ih.1, by simpa [Message.push_additional] using ih.2.1, by simpa [Message.push_additional] using ih.2.2.1, ?_⟩
    simp [Message.push_additional, ih.2.2.2]

/-- C5 witness: the amended statement applied to a concretely built
message (a query with one pushed answer). -/
theorem c5_built_counts_mirror_lengths_witness :
    ((Message.query 7 false []).push_answer
        (.A root_name .Internet 0 ⟨127, 0, 0, 1⟩)).header.answer_count
      = ((Message.query 7 false []).push_answer
          (.A root_name .Internet 0 ⟨127, 0, 0, 1⟩)).answers.length % 65536 :=
  (c5_built_counts_mirror_lengths _
    (Built.push_answer _ _ (Built.query 7 false []))).2.1

/-- C10: a buffer that ends partway through a declared section decodes to
`Ok` with only the fully parsed items — the concrete truncated buffer
declares one answer yet parses to a message with an empty answer list —
and in general the section loops translate `Incomplete` into a partial
`Done`, never into an `Incomplete` result. -/
theorem c10_truncated_sections_ok :
    message_parse 64 c10_truncated_input = .ok c10_truncated_msg ∧
    c10_truncated_msg.header.answer_count = 1 ∧
    c10_truncated_msg.answers = [] ∧
    (∀ (fuel count : Nat) (i data : List Nat),
      (parse_questions fuel i data count).isIncomplete = false ∧
      (parse_records fuel i data count).isIncomplete = false) :=
  ⟨rfl, rfl, rfl, fun fuel count i data =>
    ⟨parse_questions_not_incomplete fuel count i data,
     parse_records_not_incomplete fuel count i data⟩⟩

/-- The resolve loop performs at most one query round trip per remaining
iteration. -/
theorem resolve_go_count_le (query : Nat → IpAddr → Except ResolveError Message)
    (nested : Name → Except ResolveError (List IpAddr)) :
    ∀ (n k : Nat) (ns : IpAddr), (resolve_go query nested n k ns).2 ≤ n := by
  intro n
  induction n with
  | zero => intro k ns; simp [resolve_go]
  | succ n ih =>
    intro k ns
    simp only [resolve_go]
    cases hq : query k ns with
    | error e => simp
    | ok reply =>
      by_cases hauth : reply.header.authoritative = true ∧ reply.header.rcode = .NameError
      · simp [hauth]
      · simp only [if_neg hauth]
        cases hans : get_answer reply with
        | some addrs => simp
        | none =>
          cases hglue : get_glue reply with
          | some glue => simpa using ih (k + 1) glue
          | none =>
            cases hns : get_ns reply with
            | some ns2 =>
              cases hn : nested ns2 with
              | error e => simp [hn]
              | ok addrs =>
                cases addrs with
                | nil => simp [hn]
                | cons a rest =>
                  simp only [hn]
                  exact Nat.succ_le_succ (ih (k + 1) a)
            | none => simpa using ih (k + 1) ns

/-- Against a transport whose every reply carries no usable information,
the loop spends its whole budget and fails with the depth bound. -/
theorem resolve_go_no_info (query : Nat → IpAddr → Except ResolveError Message)
    (nested : Name → Except ResolveError (List IpAddr))
    (h : ∀ (k : Nat) (ns : IpAddr), ∃ m, query k ns = .ok m ∧ no_info m) :
    ∀ (n k : Nat) (ns : IpAddr),
      resolve_go query nested n k ns
        = (.err (.ExceededMaximumLookupDepth MAX_LOOKUPS), n) := by
  intro n
  induction n with
  | zero => intro k ns; rfl
  | succ n ih =>
    intro k ns
    obtain ⟨m, hq, hni⟩ := h k ns
    simp only [resolve_go, hq, if_neg hni.1, hni.2.1, hni.2.2.1, hni.2.2.2,
      ih (k + 1) ns]

/-- C7: `resolve` performs at most `MAX_LOOKUPS = 20` query round trips per
top-level resolution (nested NS lookups abstracted as an oracle), and when
every reply carries no answers, no glue and no NS authority — so no
terminal case is reached — all 20 iterations run and the result is
`Err(ExceededMaximumLookupDepth(20))`. -/
theorem c7_resolve_bounded (query : Nat → IpAddr → Except ResolveError Message)
    (nested : Name → Except ResolveError (List IpAddr)) :
    (resolve_model query nested).2 ≤ MAX_LOOKUPS ∧
    ((∀ (k : Nat) (ns : IpAddr), ∃ m, query k ns = .ok m ∧ no_info m) →
      resolve_model query nested
        = (.err (.ExceededMaximumLookupDepth MAX_LOOKUPS), MAX_LOOKUPS)) :=
  ⟨resolve_go_count_le query nested MAX_LOOKUPS 0 root_nameserver,
   fun h => resolve_go_no_info query nested h MAX_LOOKUPS 0 root_nameserver⟩

/-- C7 witness: the bound applied to the synthetic always-empty transport. -/
theorem c7_resolve_bounded_witness :
    (resolve_model (fun _ _ => .ok no_info_reply) (fun _ => .error .NoSuchDomain)).2
        ≤ MAX_LOOKUPS ∧
    resolve_model (fun _ _ => .ok no_info_reply) (fun _ => .error .NoSuchDomain)
        = (.err (.ExceededMaximumLookupDepth MAX_LOOKUPS), MAX_LOOKUPS) :=
  ⟨(c7_resolve_bounded _ _).1,
   (c7_resolve_bounded _ _).2 (fun _ _ => ⟨no_info_reply, rfl, by
     refine ⟨?_, rfl, rfl, rfl⟩
     decide⟩)⟩

/-- C8: `parse_body_a` accepts an A record body exactly when the RDLENGTH
bytes are `00 04`, reading the following 4 bytes as the IPv4 address; any
other RDLENGTH fails the `tag!(b"\x00\x04")` and is rejected with the
error chain topped by `Custom(403)` — the code's encoding of the
`InvalidRecordLength(Type::A)` rejection declared in src/errors.rs. -/
theorem c8_a_rdlength_enforced (c1 c2 t1 t2 t3 t4 l1 l2 a b c d : Nat)
    (rest : List Nat) :
    (¬(l1 = 0 ∧ l2 = 4) →
      parse_body_a (c1 :: c2 :: t1 :: t2 :: t3 :: t4 :: l1 :: l2 :: a :: b :: c :: d :: rest)
        = .perror (.node 403 .tagMismatch)) ∧
    parse_body_a (c1 :: c2 :: t1 :: t2 :: t3 :: t4 :: 0 :: 4 :: a :: b :: c :: d :: rest)
      = .done rest (class_from (c1 * 256 + c2),
          to_i32 (((t1 * 256 + t2) * 256 + t3) * 256 + t4), ⟨a, b, c, d⟩) := by
  constructor
  · intro h
    simp [parse_body_a, parse_class, be_u16, be_i32, be_u32, be_u8, pbind,
      tag2, add_return_error, h]
  · simp [parse_body_a, parse_class, be_u16, be_i32, be_u32, be_u8, pbind,
      tag2, add_return_error]

/-- C8 witness: a 5-byte RDLENGTH is rejected with the Custom(403) chain;
a 4-byte RDLENGTH parses to the address. -/
theorem c8_a_rdlength_enforced_witness :
    parse_body_a [0, 1, 0, 0, 1, 44, 0, 5, 127, 0, 0, 1]
      = .perror (.node 403 .tagMismatch) ∧
    parse_body_a [0, 1, 0, 0, 1, 44, 0, 4, 127, 0, 0, 1]
      = .done [] (.Internet, 300, ⟨127, 0, 0, 1⟩) :=
  ⟨(c8_a_rdlength_enforced 0 1 0 0 1 44 0 5 127 0 0 1 []).1 (by decide),
   (c8_a_rdlength_enforced 0 1 0 0 1 44 0 4 127 0 0 1 []).2⟩

/-- C6: whenever a 2-byte compression pointer at position `p` encodes an
offset `k` within the message, and parsing a name at offset `k` succeeds
(with any number of bytes consumed there), parsing at `p` yields the very
same `Name` and consumes exactly the 2 pointer bytes, leaving everything
from `p + 2` unconsumed. -/
theorem c6_compression_pointer (fuel p k b1 b2 : Nat) (data tl rest : List Nat)
    (nm : Name)
    (hdrop : data.drop p = b1 :: b2 :: tl)
    (hb1l : 192 ≤ b1) (hb1u : b1 ≤ 255)
    (hk : k = Nat.land b1 63 * 256 + b2)
    (hlen : k ≤ data.length)
    (htarget : parse_name fuel (data.drop k) data = .done rest nm) :
    parse_name (fuel + 1) (data.drop p) data = .done (data.drop (p + 2)) nm := by
  subst hk
  have hdone : do_parse_name fuel (data.drop (Nat.land b1 63 * 256 + b2)) data []
      = .done rest nm.name := by
    cases hdo : do_parse_name fuel (data.drop (Nat.land b1 63 * 256 + b2)) data [] with
    | done r v =>
      rw [parse_name, hdo] at htarget
      cases htarget
      rfl
    | perror e => rw [parse_name, hdo] at htarget; cases htarget
    | incomplete n => rw [parse_name, hdo] at htarget; cases htarget
    | panic => rw [parse_name, hdo] at htarget; cases htarget
    | diverge => rw [parse_name, hdo] at htarget; cases htarget
  have htl : data.drop (p + 2) = tl := by
    have h2 := congrArg (List.drop 2) hdrop
    simpa using h2
  have h2 : do_parse_name (fuel + 1) (data.drop p) data [] = .done tl nm.name := by
    rw [hdrop]
    simp only [do_parse_name]
    rw [if_neg (by omega : ¬ b1 = 0), if_neg (by omega : ¬ b1 ≤ 63),
      if_pos ⟨hb1l, hb1u⟩, if_neg (by omega : ¬ data.length < Nat.land b1 63 * 256 + b2),
      hdone]
  rw [parse_name, h2, htl]

/-- C6 witness: the `name_parse_bytes_test` fixture — `F.ISI.ARPA.` at
offset 20, pointer `C0 14` at offset 44 — parsed through the theorem. -/
theorem c6_compression_pointer_witness :
    parse_name 8 (nbuf.drop 20) nbuf = .done (nbuf.drop 32) f_isi_arpa ∧
    parse_name 9 (nbuf.drop 44) nbuf = .done (nbuf.drop 46) f_isi_arpa :=
  ⟨by decide,
   c6_compression_pointer 8 44 20 192 20 nbuf [0, 97, 98, 99, 100] (nbuf.drop 32)
     f_isi_arpa (by decide) (by decide) (by decide) (by decide) (by decide)
     (by decide)⟩

/-- Setting the byte at the index of the `0` separator replaces it. -/
theorem set_append_cons (done : List Nat) (v : Nat) (cur : List Nat) :
    (done ++ 0 :: cur).set done.length v = done ++ v :: cur := by
  induction done with
  | nil => rfl
  | cons d ds ih =>
    simp only [List.cons_append, List.length_cons, List.set, List.append_eq]
    rw [ih]

/-- Appending one more complete label keeps a chunk sequence a chunk
sequence. -/
theorem chunks_append (done : List Nat) (h : Chunks done) (L : Nat) (bs : List Nat)
    (h1 : 1 ≤ L) (h2 : L ≤ 63) (h3 : bs.length = L) (h4 : label_ok bs = true) :
    Chunks (done ++ L :: bs) := by
  induction h with
  | nil =>
    have := Chunks.cons L bs [] h1 h2 h3 h4 Chunks.nil
    simpa using this
  | cons L0 bs0 rest0 a1 a2 a3 a4 _ ih =>
    have he : (L0 :: (bs0 ++ rest0)) ++ L :: bs = L0 :: (bs0 ++ (rest0 ++ L :: bs)) := by
      simp
    rw [he]
    exact Chunks.cons L0 bs0 _ a1 a2 a3 a4 ih

/-- A partial label stays well formed when a further valid byte is pushed
(the byte may be a hyphen only when the label is nonempty). -/
theorem label_ok_append (cur : List Nat) (x : Nat) (hx : is_name_byte x = true)
    (hh : cur = [] → x ≠ 45) (hc : label_ok cur = true) :
    label_ok (cur ++ [x]) = true := by
  cases cur with
  | nil =>
    have hx45 : x ≠ 45 := hh rfl
    simp [label_ok, hx, hx45]
  | cons b r =>
    simp only [label_ok, List.cons_append, Bool.and_eq_true, List.all_append,
      List.all_cons, List.all_nil, Bool.and_true] at hc ⊢
    exact ⟨hc.1, hc.2, hx⟩

/-- A character other than `'-'` does not have scalar value 45. -/
theorem toNat_ne_45 (c : Char) (h : c ≠ '-') : c.toNat ≠ 45 := by
  intro h45
  apply h
  have hofn := Char.ofNat_toNat c
  rw [h45] at hofn
  have : Char.ofNat 45 = '-' := by decide
  rw [this] at hofn
  exact hofn.symm

/-- An accepted scan result is never longer than the starting buffer plus
one byte per remaining character. -/
theorem from_str_go_length : ∀ (cs : List Char) (name : List Nat) (li ll : Nat)
    (nm : List Nat), from_str_go cs name li ll = .ok nm →
    nm.length ≤ name.length + cs.length := by
  intro cs
  induction cs with
  | nil =>
    intro name li ll nm h
    simp only [from_str_go] at h
    split_ifs at h
    injection h with h
    simp [← h]
  | cons c cs ih =>
    intro name li ll nm h
    simp only [from_str_go] at h
    split_ifs at h
    · have hrec := ih _ _ _ _ h
      simp only [List.length_append, List.length_set, List.length_cons,
        List.length_nil] at hrec
      simp only [List.length_cons]
      omega
    · have hrec := ih _ _ _ _ h
      simp only [List.length_append, List.length_cons, List.length_nil] at hrec
      simp only [List.length_cons]
      omega

/-- Invariant of the `from_str` scan: starting from a completed chunk
sequence `done`, its `0` placeholder, and a well-formed partial label
`cur`, an `ok` outcome is always a chunk sequence followed by the root
byte. -/
theorem from_str_go_ok : ∀ (cs : List Char) (done cur nm : List Nat),
    Chunks done → label_ok cur = true →
    from_str_go cs (done ++ 0 :: cur) done.length cur.length = .ok nm →
    ∃ dn, Chunks dn ∧ nm = dn ++ [0] := by
  intro cs
  induction cs with
  | nil =>
    intro done cur nm hch hcur hok
    simp only [from_str_go] at hok
    split_ifs at hok with h0
    have hnil : cur = [] := List.eq_nil_of_length_eq_zero (by omega)
    subst hnil
    injection hok with hok
    refine ⟨done, hch, ?_⟩
    rw [← hok]
  | cons c cs ih =>
    intro done cur nm hch hcur hok
    simp only [from_str_go] at hok
    split_ifs at hok with h1 h2 h3 h4 h5
    · -- '.' with a label of length 1..=63: close the label
      rw [set_append_cons] at hok
      have hl : (done ++ 0 :: cur).length = (done ++ cur.length :: cur).length := by
        simp
      rw [hl] at hok
      exact ih (done ++ cur.length :: cur) [] nm
        (chunks_append done hch cur.length cur (by omega) (by omega) rfl hcur)
        rfl hok
    · -- an ordinary name character: extend the current label
      have heq : (done ++ 0 :: cur) ++ [c.toNat] = done ++ 0 :: (cur ++ [c.toNat]) := by
        simp
      rw [heq] at hok
      have hlen : cur.length + 1 = (cur ++ [c.toNat]).length := by simp
      rw [hlen] at hok
      refine ih done (cur ++ [c.toNat]) nm hch ?_ hok
      refine label_ok_append cur c.toNat h5 ?_ hcur
      intro hnil
      have hl0 : cur.length = 0 := by simp [hnil]
      have hcne : c ≠ '-' := fun hc => h4 ⟨hc, hl0⟩
      exact toNat_ne_45 c hcne

/-- C9: every name accepted by `Name::from_str` has wire encoding of at
most 255 bytes consisting of labels of length 1..=63 whose bytes are
letters/digits/hyphen with no leading hyphen, followed by the root byte —
so an over-long label, an over-long name, or a leading hyphen is rejected
— and the root-only name "." is accepted, yielding the empty label
sequence for which `is_root` holds. -/
theorem c9_from_str_validation :
    (∀ (s : List Char) (nm : Name), Name.from_str s = .ok nm →
      nm.name.length ≤ 255 ∧ ∃ dn, Chunks dn ∧ nm.name = dn ++ [0]) ∧
    Name.from_str ['.'] = .ok ⟨[0]⟩ ∧ Name.is_root ⟨[0]⟩ = true := by
  refine ⟨?_, rfl, rfl⟩
  intro s nm h
  rw [Name.from_str] at h
  split_ifs at h with hlen254 hdot
  · cases h
    exact ⟨by simp, ⟨[], Chunks.nil, rfl⟩⟩
  · cases hgo : from_str_go s [0] 0 0 with
    | error e => rw [hgo] at h; cases h
    | ok bytes =>
      rw [hgo] at h
      injection h with h
      subst h
      constructor
      · have hle := from_str_go_length s [0] 0 0 bytes hgo
        simp only [List.length_cons, List.length_nil] at hle
        show bytes.length ≤ 255
        omega
      · exact from_str_go_ok s [] [] bytes Chunks.nil rfl hgo

/-- C9 witness: the validation theorem applied to the accepted name
`ab.c.`. -/
theorem c9_from_str_validation_witness :
    Name.from_str ['a', 'b', '.', 'c', '.'] = .ok ⟨[2, 97, 98, 1, 99, 0]⟩ ∧
    ((⟨[2, 97, 98, 1, 99, 0]⟩ : Name).name.length ≤ 255 ∧
      ∃ dn, Chunks dn ∧ (⟨[2, 97, 98, 1, 99, 0]⟩ : Name).name = dn ++ [0]) :=
  ⟨rfl,
   c9_from_str_validation.1 ['a', 'b', '.', 'c', '.'] ⟨[2, 97, 98, 1, 99, 0]⟩ rfl⟩

end Martin
